import Mathlib

/-!
Shallow embedding of `src/main.rs` of the `insufficient_encapsulation`
repository: an in-memory ledger with a secure (validated, rollback-on-abort)
transfer endpoint and a vulnerable (unvalidated, in-place) transfer endpoint.

Modelling choices:
* `Uuid` identifiers are modelled as `Nat` (opaque identifiers; only equality
  is used by the code).
* `i32` balances and amounts are modelled as `Int` (the code's arithmetic on
  them: comparison, `+=`, `-=`).
* The two `HashMap<Uuid, BankAccount>` stores are modelled extensionally as
  functions `Nat → Option BankAccount`; `HashMap::insert`, `remove` and `get`
  become pointwise update / delete / application.
* The HTTP layer is modelled by the outcome inductives together with the
  numeric status codes the handlers attach (`Ok` = 200, `BadRequest` = 400,
  `NotFound` = 404).
-/

/-- `BankAccount` of both `vulnerable_account` and `secure_account` in
`src/main.rs`: an identifier and an `i32` balance.  The two Rust structs have
identical fields (they differ only in field visibility), so a single Lean
structure models both. -/
structure BankAccount where
  account_number : Nat
  balance : Int
  deriving DecidableEq, Repr

/-- The two failure messages of `secure_account::BankAccount::withdraw`. -/
inductive WithdrawError where
  | invalidAmount
  | insufficientFunds
  deriving DecidableEq, Repr

/-- The literal `&'static str` bodies returned by `withdraw` in `src/main.rs`. -/
def WithdrawError.message : WithdrawError → String
  | .invalidAmount => "Withdrawal amount must be positive."
  | .insufficientFunds => "Insufficient funds."

/-- `secure_account::BankAccount::deposit` (src/main.rs lines 56-60):
if `amount > 0` the balance is increased in place, otherwise nothing
happens. -/
def BankAccount.deposit (acct : BankAccount) (amount : Int) : BankAccount :=
  if amount > 0 then { acct with balance := acct.balance + amount } else acct

/-- `secure_account::BankAccount::withdraw` (src/main.rs lines 64-74):
rejects `amount <= 0`, then requires `balance >= amount`; on success the
balance is decreased.  The Rust method mutates in place and returns
`Result<(), &str>`; the pure embedding returns the updated account on
success and leaves the input untouched on failure. -/
def BankAccount.withdraw (acct : BankAccount) (amount : Int) :
    Except WithdrawError BankAccount :=
  if amount ≤ 0 then Except.error WithdrawError.invalidAmount
  else if acct.balance ≥ amount then
    Except.ok { acct with balance := acct.balance - amount }
  else Except.error WithdrawError.insufficientFunds

/-- A `HashMap<Uuid, BankAccount>`, modelled extensionally. -/
def Store := Nat → Option BankAccount

/-- `HashMap::insert`: add or replace the entry at key `k`. -/
def Store.insert (s : Store) (k : Nat) (a : BankAccount) : Store :=
  fun id => if id = k then some a else s id

/-- The map left behind by `HashMap::remove(&k)` (the removed value itself is
`s k`, which the embedding of `secure_transfer` matches on directly). -/
def Store.remove (s : Store) (k : Nat) : Store :=
  fun id => if id = k then none else s id

/-- The store with no accounts (initial state of `main`). -/
def Store.empty : Store := fun _ => none

theorem Store.insert_self (s : Store) (k : Nat) (a : BankAccount) :
    s.insert k a k = some a := by
  simp [Store.insert]

theorem Store.insert_ne (s : Store) (k : Nat) (a : BankAccount) (id : Nat)
    (h : id ≠ k) : s.insert k a id = s id := by
  simp [Store.insert, h]

theorem Store.remove_self (s : Store) (k : Nat) : s.remove k k = none := by
  simp [Store.remove]

theorem Store.remove_ne (s : Store) (k : Nat) (id : Nat) (h : id ≠ k) :
    s.remove k id = s id := by
  simp [Store.remove, h]

/-- Outcome of the `secure_transfer` handler (src/main.rs lines 161-208),
one constructor per `return` site. -/
inductive TransferOutcome where
  | committed
  | sameAccount
  | sourceNotFound
  | destinationNotFound
  | withdrawFailed (e : WithdrawError)
  deriving DecidableEq, Repr

/-- HTTP status code attached by `secure_transfer` to each outcome:
`Ok` = 200, `BadRequest` = 400, `NotFound` = 404. -/
def TransferOutcome.statusCode : TransferOutcome → Nat
  | .committed => 200
  | .sameAccount => 400
  | .sourceNotFound => 404
  | .destinationNotFound => 404
  | .withdrawFailed _ => 400

/-- `secure_transfer` (src/main.rs lines 161-208), acting on the
`secure_accounts` store it locks: reject `from == to`; remove the source
(absent ⇒ not-found); remove the destination (absent ⇒ reinsert the source,
keyed by its `account_number`, and abort); `withdraw` on the detached source
copy (failure ⇒ reinsert both detached entries unchanged, keyed by their
`account_number`s, and abort); otherwise `deposit` into the detached
destination copy and reinsert both mutated copies.  Returns the outcome and
the store left behind. -/
def secure_transfer (s : Store) (fromId toId : Nat) (amount : Int) :
    TransferOutcome × Store :=
  if fromId = toId then (TransferOutcome.sameAccount, s)
  else
    match s fromId with
    | none => (TransferOutcome.sourceNotFound, s)
    | some from_account =>
      let s1 := s.remove fromId
      match s1 toId with
      | none =>
        (TransferOutcome.destinationNotFound,
          s1.insert from_account.account_number from_account)
      | some to_account =>
        let s2 := s1.remove toId
        match from_account.withdraw amount with
        | Except.error e =>
          (TransferOutcome.withdrawFailed e,
            (s2.insert from_account.account_number from_account).insert
              to_account.account_number to_account)
        | Except.ok from_mut =>
          let to_mut := to_account.deposit amount
          (TransferOutcome.committed,
            (s2.insert from_mut.account_number from_mut).insert
              to_mut.account_number to_mut)

/-- Outcome of the `vulnerable_transfer` handler (src/main.rs lines 134-158). -/
inductive VulnOutcome where
  | ok
  | senderNotFound
  | receiverNotFound
  deriving DecidableEq, Repr

/-- HTTP status code attached by `vulnerable_transfer` to each outcome. -/
def VulnOutcome.statusCode : VulnOutcome → Nat
  | .ok => 200
  | .senderNotFound => 404
  | .receiverNotFound => 404

/-- `vulnerable_transfer` (src/main.rs lines 134-158), acting on the
`vulnerable_accounts` store it locks: `get_mut` the sender and subtract
`amount` in place with no sufficiency check (absent ⇒ not-found, nothing
touched); then `get_mut` the receiver and add `amount` (absent ⇒ not-found
with the sender's debit already applied and never rolled back). -/
def vulnerable_transfer (s : Store) (fromId toId : Nat) (amount : Int) :
    VulnOutcome × Store :=
  match s fromId with
  | none => (VulnOutcome.senderNotFound, s)
  | some from_account =>
    let s1 := s.insert fromId
      { from_account with balance := from_account.balance - amount }
    match s1 toId with
    | none => (VulnOutcome.receiverNotFound, s1)
    | some to_account =>
      (VulnOutcome.ok, s1.insert toId
        { to_account with balance := to_account.balance + amount })

/-- `create_account` (src/main.rs lines 101-120): a fresh identifier `new_id`
is generated (modelled as a parameter; the code takes it from the vulnerable
copy's `Uuid::new_v4()`), the secure copy's `account_number` is overwritten to
`new_id`, and one entry is inserted into each store under `new_id`.  Returns
the pair (vulnerable store, secure store). -/
def create_account (vuln_accounts secure_accounts : Store) (new_id : Nat)
    (initial_balance : Int) : Store × Store :=
  let vuln_account : BankAccount :=
    { account_number := new_id, balance := initial_balance }
  let sec_account : BankAccount :=
    { account_number := new_id, balance := initial_balance }
  (vuln_accounts.insert new_id vuln_account,
    secure_accounts.insert new_id sec_account)

/-- `get_account` (src/main.rs lines 123-131): a read-only lookup in the
secure store; it performs no mutation. -/
def get_account (secure_accounts : Store) (id : Nat) : Option BankAccount :=
  secure_accounts id

/-- Every entry's key equals the stored account's `account_number` field. -/
def WellFormed (s : Store) : Prop :=
  ∀ id a, s id = some a → a.account_number = id

/-- Every account in the store has a non-negative balance. -/
def NonNeg (s : Store) : Prop :=
  ∀ id a, s id = some a → 0 ≤ a.balance

/-! ### Helper lemmas about the embedded operations -/

theorem BankAccount.withdraw_ok_iff (acct : BankAccount) (amount : Int)
    (acct2 : BankAccount) :
    acct.withdraw amount = Except.ok acct2 ↔
      0 < amount ∧ amount ≤ acct.balance ∧
        acct2 = { acct with balance := acct.balance - amount } := by
  unfold BankAccount.withdraw
  split
  · constructor
    · intro h; cases h
    · intro h; omega
  · split
    · constructor
      · intro h; cases h; refine ⟨by omega, by omega, rfl⟩
      · intro h; rw [h.2.2]
    · constructor
      · intro h; cases h
      · intro h; omega

theorem BankAccount.withdraw_err (acct : BankAccount) (amount : Int)
    (e : WithdrawError) (h : acct.withdraw amount = Except.error e) :
    (amount ≤ 0 ∧ e = WithdrawError.invalidAmount) ∨
      (0 < amount ∧ acct.balance < amount ∧
        e = WithdrawError.insufficientFunds) := by
  unfold BankAccount.withdraw at h
  split at h
  · cases h; left; constructor <;> [omega; rfl]
  · split at h
    · cases h
    · cases h; right; refine ⟨by omega, by omega, rfl⟩

theorem BankAccount.deposit_account_number (acct : BankAccount) (amount : Int) :
    (acct.deposit amount).account_number = acct.account_number := by
  unfold BankAccount.deposit
  split <;> rfl

theorem BankAccount.deposit_balance (acct : BankAccount) (amount : Int) :
    (acct.deposit amount).balance =
      if 0 < amount then acct.balance + amount else acct.balance := by
  unfold BankAccount.deposit
  split <;> simp_all

/-- Branch characterization: same source and destination identifier. -/
theorem secure_transfer_same (s : Store) (fromId toId : Nat) (amount : Int)
    (h : fromId = toId) :
    secure_transfer s fromId toId amount = (TransferOutcome.sameAccount, s) := by
  simp [secure_transfer, h]

/-- Branch characterization: the source identifier is absent. -/
theorem secure_transfer_no_source (s : Store) (fromId toId : Nat) (amount : Int)
    (hne : fromId ≠ toId) (hf : s fromId = none) :
    secure_transfer s fromId toId amount = (TransferOutcome.sourceNotFound, s) := by
  simp [secure_transfer, hne, hf]

/-- Branch characterization: the source exists, the destination is absent. -/
theorem secure_transfer_no_dest (s : Store) (fromId toId : Nat) (amount : Int)
    (fa : BankAccount) (hne : fromId ≠ toId) (hf : s fromId = some fa)
    (ht : s toId = none) :
    secure_transfer s fromId toId amount =
      (TransferOutcome.destinationNotFound,
        (s.remove fromId).insert fa.account_number fa) := by
  have hrem : (s.remove fromId) toId = none := by
    rw [Store.remove_ne s fromId toId (Ne.symm hne), ht]
  simp [secure_transfer, hne, hf, hrem]

/-- Branch characterization: both exist, `withdraw` fails. -/
theorem secure_transfer_withdraw_err (s : Store) (fromId toId : Nat)
    (amount : Int) (fa ta : BankAccount) (e : WithdrawError)
    (hne : fromId ≠ toId) (hf : s fromId = some fa) (ht : s toId = some ta)
    (hw : fa.withdraw amount = Except.error e) :
    secure_transfer s fromId toId amount =
      (TransferOutcome.withdrawFailed e,
        (((s.remove fromId).remove toId).insert fa.account_number fa).insert
          ta.account_number ta) := by
  have hrem : (s.remove fromId) toId = some ta := by
    rw [Store.remove_ne s fromId toId (Ne.symm hne), ht]
  simp [secure_transfer, hne, hf, hrem, hw]

/-- Branch characterization: both exist, `withdraw` succeeds (commit). -/
theorem secure_transfer_commit (s : Store) (fromId toId : Nat)
    (amount : Int) (fa ta fa2 : BankAccount)
    (hne : fromId ≠ toId) (hf : s fromId = some fa) (ht : s toId = some ta)
    (hw : fa.withdraw amount = Except.ok fa2) :
    secure_transfer s fromId toId amount =
      (TransferOutcome.committed,
        (((s.remove fromId).remove toId).insert fa2.account_number fa2).insert
          (ta.deposit amount).account_number (ta.deposit amount)) := by
  have hrem : (s.remove fromId) toId = some ta := by
    rw [Store.remove_ne s fromId toId (Ne.symm hne), ht]
  simp [secure_transfer, hne, hf, hrem, hw]

/-- Reinserting the entry removed at `k` under its own key restores the
store pointwise. -/
theorem restore_one (s : Store) (k : Nat) (a : BankAccount)
    (h : s k = some a) (id : Nat) :
    ((s.remove k).insert k a) id = s id := by
  by_cases hk : id = k
  · subst hk; rw [Store.insert_self, h]
  · rw [Store.insert_ne _ _ _ _ hk, Store.remove_ne _ _ _ hk]

/-- Reinserting both entries removed at `k1` then `k2` under their own keys
restores the store pointwise. -/
theorem restore_two (s : Store) (k1 k2 : Nat) (a1 a2 : BankAccount)
    (hne : k1 ≠ k2) (h1 : s k1 = some a1) (h2 : s k2 = some a2) (id : Nat) :
    ((((s.remove k1).remove k2).insert k1 a1).insert k2 a2) id = s id := by
  by_cases hk2 : id = k2
  · subst hk2; rw [Store.insert_self, h2]
  · rw [Store.insert_ne _ _ _ _ hk2]
    by_cases hk1 : id = k1
    · subst hk1; rw [Store.insert_self, h1]
    · rw [Store.insert_ne _ _ _ _ hk1, Store.remove_ne _ _ _ hk2,
        Store.remove_ne _ _ _ hk1]

theorem wellformed_empty : WellFormed Store.empty :=
  fun _ _ h => nomatch h

theorem wellformed_insert (s : Store) (k : Nat) (a : BankAccount)
    (hs : WellFormed s) (ha : a.account_number = k) :
    WellFormed (s.insert k a) := by
  intro id b h
  by_cases hk : id = k
  · subst hk; rw [Store.insert_self] at h; cases h; exact ha
  · rw [Store.insert_ne _ _ _ _ hk] at h; exact hs id b h

theorem wellformed_remove (s : Store) (k : Nat) (hs : WellFormed s) :
    WellFormed (s.remove k) := by
  intro id b h
  by_cases hk : id = k
  · subst hk; rw [Store.remove_self] at h; cases h
  · rw [Store.remove_ne _ _ _ hk] at h; exact hs id b h

theorem nonneg_empty : NonNeg Store.empty :=
  fun _ _ h => nomatch h

theorem nonneg_insert (s : Store) (k : Nat) (a : BankAccount)
    (hs : NonNeg s) (ha : 0 ≤ a.balance) : NonNeg (s.insert k a) := by
  intro id b h
  by_cases hk : id = k
  · subst hk; rw [Store.insert_self] at h; cases h; exact ha
  · rw [Store.insert_ne _ _ _ _ hk] at h; exact hs id b h

theorem nonneg_remove (s : Store) (k : Nat) (hs : NonNeg s) :
    NonNeg (s.remove k) := by
  intro id b h
  by_cases hk : id = k
  · subst hk; rw [Store.remove_self] at h; cases h
  · rw [Store.remove_ne _ _ _ hk] at h; exact hs id b h

/-! ### Concrete stores used by the witnesses -/

/-- A store holding account 1 with balance 100 and account 2 with balance 50. -/
def storeAB : Store :=
  (Store.empty.insert 1 { account_number := 1, balance := 100 }).insert 2
    { account_number := 2, balance := 50 }

/-- A store holding only account 1 with balance 100. -/
def storeA : Store :=
  Store.empty.insert 1 { account_number := 1, balance := 100 }

/-- A store holding account 1 with the negative balance -5 (creation does not
validate `initial_balance`) and account 2 with balance 0. -/
def storeNeg : Store :=
  (Store.empty.insert 1 { account_number := 1, balance := -5 }).insert 2
    { account_number := 2, balance := 0 }

theorem storeAB_wellformed : WellFormed storeAB :=
  wellformed_insert _ _ _ (wellformed_insert _ _ _ wellformed_empty rfl) rfl

theorem storeA_wellformed : WellFormed storeA :=
  wellformed_insert _ _ _ wellformed_empty rfl

theorem storeNeg_wellformed : WellFormed storeNeg :=
  wellformed_insert _ _ _ (wellformed_insert _ _ _ wellformed_empty rfl) rfl

theorem storeAB_nonneg : NonNeg storeAB :=
  nonneg_insert _ _ _ (nonneg_insert _ _ _ nonneg_empty (by decide)) (by decide)

/-! ### Claim theorems -/

/-- Claim C1: for every secure transfer request with `fromId ≠ toId` over a
well-formed store that ends in an aborted outcome (source not found,
destination not found, invalid amount, or insufficient funds), the store
after the transfer agrees with the store before it at every identifier: no
partial debit or credit survives an abort. -/
theorem secure_transfer_abort_preserves_store (s : Store) (fromId toId : Nat)
    (amount : Int) (id : Nat) (hwf : WellFormed s) (hne : fromId ≠ toId)
    (hab : (secure_transfer s fromId toId amount).1 ≠ TransferOutcome.committed) :
    (secure_transfer s fromId toId amount).2 id = s id := by
  cases hsf : s fromId with
  | none => rw [secure_transfer_no_source s fromId toId amount hne hsf]
  | some fa =>
    cases hst : s toId with
    | none =>
      rw [secure_transfer_no_dest s fromId toId amount fa hne hsf hst]
      show ((s.remove fromId).insert fa.account_number fa) id = s id
      rw [hwf fromId fa hsf]
      exact restore_one s fromId fa hsf id
    | some ta =>
      cases hw : fa.withdraw amount with
      | error e =>
        rw [secure_transfer_withdraw_err s fromId toId amount fa ta e hne hsf
          hst hw]
        show ((((s.remove fromId).remove toId).insert fa.account_number
          fa).insert ta.account_number ta) id = s id
        rw [hwf fromId fa hsf, hwf toId ta hst]
        exact restore_two s fromId toId fa ta hne hsf hst id
      | ok fa2 =>
        exfalso
        rw [secure_transfer_commit s fromId toId amount fa ta fa2 hne hsf hst
          hw] at hab
        exact hab rfl

/-- Witness for C1: on `storeAB`, the transfer 1 → 2 of 1000 aborts (funds
are insufficient) and leaves account 1 exactly as it was. -/
theorem secure_transfer_abort_preserves_store_witness :
    WellFormed storeAB ∧ (1 : Nat) ≠ 2 ∧
      (secure_transfer storeAB 1 2 1000).1 ≠ TransferOutcome.committed ∧
      (secure_transfer storeAB 1 2 1000).2 1 = storeAB 1 :=
  ⟨storeAB_wellformed, by decide, by decide,
    secure_transfer_abort_preserves_store storeAB 1 2 1000 1 storeAB_wellformed
      (by decide) (by decide)⟩

/-- Claim C3: `withdraw` fails with the invalid-amount error when
`amount ≤ 0`, fails with the insufficient-funds error when `0 < amount` and
`balance < amount`, and otherwise succeeds with the balance decreased by
exactly `amount`.  The embedding is pure, so on either failure the input
account is untouched and its balance unchanged. -/
theorem withdraw_spec (acct : BankAccount) (amount : Int) :
    (amount ≤ 0 →
      acct.withdraw amount = Except.error WithdrawError.invalidAmount) ∧
    (0 < amount → acct.balance < amount →
      acct.withdraw amount = Except.error WithdrawError.insufficientFunds) ∧
    (0 < amount → amount ≤ acct.balance →
      acct.withdraw amount =
        Except.ok { acct with balance := acct.balance - amount }) := by
  refine ⟨fun h => ?_, fun h1 h2 => ?_, fun h1 h2 => ?_⟩ <;>
    unfold BankAccount.withdraw
  · rw [if_pos h]
  · rw [if_neg (by omega), if_neg (by omega)]
  · rw [if_neg (by omega), if_pos (by omega)]

/-- Witness for C3: on an account with balance 5, withdrawing 0 is rejected
as invalid, withdrawing 9 as insufficient, and withdrawing 3 leaves 2. -/
theorem withdraw_spec_witness :
    BankAccount.withdraw { account_number := 1, balance := 5 } 0 =
        Except.error WithdrawError.invalidAmount ∧
      BankAccount.withdraw { account_number := 1, balance := 5 } 9 =
        Except.error WithdrawError.insufficientFunds ∧
      BankAccount.withdraw { account_number := 1, balance := 5 } 3 =
        Except.ok { account_number := 1, balance := 2 } := by
  refine ⟨(withdraw_spec { account_number := 1, balance := 5 } 0).1 (by decide),
    (withdraw_spec { account_number := 1, balance := 5 } 9).2.1 (by decide)
      (by decide), ?_⟩
  rw [(withdraw_spec { account_number := 1, balance := 5 } 3).2.2 (by decide)
    (by decide)]
  norm_num

/-- Claim C6: a transfer with `fromId = toId` aborts with the same-account
outcome and the untouched store, regardless of the amount, the balance, or
whether the account exists at all, and the handler maps this outcome to the
client-error status 400. -/
theorem secure_transfer_same_account (s : Store) (fromId toId : Nat)
    (amount : Int) (h : fromId = toId) :
    secure_transfer s fromId toId amount = (TransferOutcome.sameAccount, s) ∧
      TransferOutcome.sameAccount.statusCode = 400 :=
  ⟨secure_transfer_same s fromId toId amount h, rfl⟩

/-- Witness for C6: a self-transfer on the empty store (the account does not
even exist) aborts with the same-account outcome. -/
theorem secure_transfer_same_account_witness :
    (5 : Nat) = 5 ∧
      (secure_transfer Store.empty 5 5 10 =
        (TransferOutcome.sameAccount, Store.empty) ∧
      TransferOutcome.sameAccount.statusCode = 400) :=
  ⟨rfl, secure_transfer_same_account Store.empty 5 5 10 rfl⟩

/-- Claim C7: when the source exists in a well-formed store but the
destination does not, the transfer aborts with the destination-not-found
outcome and the removed source entry is reinserted under its original
identifier, so the store agrees with its pre-transfer state at every
identifier. -/
theorem secure_transfer_dest_missing_restores (s : Store) (fromId toId : Nat)
    (amount : Int) (id : Nat) (fa : BankAccount) (hwf : WellFormed s)
    (hne : fromId ≠ toId) (hf : s fromId = some fa) (ht : s toId = none) :
    (secure_transfer s fromId toId amount).1 =
        TransferOutcome.destinationNotFound ∧
      (secure_transfer s fromId toId amount).2 id = s id := by
  rw [secure_transfer_no_dest s fromId toId amount fa hne hf ht]
  refine ⟨rfl, ?_⟩
  show ((s.remove fromId).insert fa.account_number fa) id = s id
  rw [hwf fromId fa hf]
  exact restore_one s fromId fa hf id

/-- Witness for C7: on `storeA` (only account 1 exists), the transfer
1 → 2 of 10 aborts with destination-not-found and account 1 is restored. -/
theorem secure_transfer_dest_missing_restores_witness :
    WellFormed storeA ∧ (1 : Nat) ≠ 2 ∧
      storeA 1 = some { account_number := 1, balance := 100 } ∧
      storeA 2 = none ∧
      ((secure_transfer storeA 1 2 10).1 =
          TransferOutcome.destinationNotFound ∧
        (secure_transfer storeA 1 2 10).2 1 = storeA 1) :=
  ⟨storeA_wellformed, by decide, by decide, by decide,
    secure_transfer_dest_missing_restores storeA 1 2 10 1
      { account_number := 1, balance := 100 } storeA_wellformed (by decide)
      (by decide) (by decide)⟩

/-- Claim C8: `deposit` increases the balance by exactly `amount` when
`0 < amount` and leaves the account untouched when `amount ≤ 0`; it returns
a plain `BankAccount` (no error channel), so in step 5 of the transfer it
cannot fail. -/
theorem deposit_spec (acct : BankAccount) (amount : Int) :
    (0 < amount →
      acct.deposit amount = { acct with balance := acct.balance + amount }) ∧
    (amount ≤ 0 → acct.deposit amount = acct) := by
  refine ⟨fun h => ?_, fun h => ?_⟩ <;> unfold BankAccount.deposit
  · rw [if_pos h]
  · rw [if_neg (by omega)]

/-- Witness for C8: on an account with balance 5, depositing 7 yields 12 and
depositing -3 changes nothing. -/
theorem deposit_spec_witness :
    BankAccount.deposit { account_number := 1, balance := 5 } 7 =
        { account_number := 1, balance := 12 } ∧
      BankAccount.deposit { account_number := 1, balance := 5 } (-3) =
        { account_number := 1, balance := 5 } := by
  constructor
  · rw [(deposit_spec { account_number := 1, balance := 5 } 7).1 (by decide)]
    norm_num
  · exact (deposit_spec { account_number := 1, balance := 5 } (-3)).2 (by decide)

/-- Claim C2: every committed secure transfer over a well-formed store
conserves money: the source and destination balances after the transfer sum
to their balances before it. -/
theorem secure_transfer_conservation (s : Store) (fromId toId : Nat)
    (amount : Int) (fa ta : BankAccount) (hwf : WellFormed s)
    (hne : fromId ≠ toId) (hf : s fromId = some fa) (ht : s toId = some ta)
    (hc : (secure_transfer s fromId toId amount).1 =
      TransferOutcome.committed) :
    ∃ fa2 ta2,
      (secure_transfer s fromId toId amount).2 fromId = some fa2 ∧
        (secure_transfer s fromId toId amount).2 toId = some ta2 ∧
        fa2.balance + ta2.balance = fa.balance + ta.balance := by
  cases hw : fa.withdraw amount with
  | error e =>
    rw [secure_transfer_withdraw_err s fromId toId amount fa ta e hne hf ht
      hw] at hc
    simp at hc
  | ok fa2 =>
    obtain ⟨hpos, hle, hfa2⟩ := (BankAccount.withdraw_ok_iff fa amount fa2).1 hw
    rw [secure_transfer_commit s fromId toId amount fa ta fa2 hne hf ht hw]
    have hfn : fa2.account_number = fromId := by
      rw [hfa2]; exact hwf fromId fa hf
    have htn : (ta.deposit amount).account_number = toId := by
      rw [BankAccount.deposit_account_number]; exact hwf toId ta ht
    refine ⟨fa2, ta.deposit amount, ?_, ?_, ?_⟩
    · show ((((s.remove fromId).remove toId).insert fa2.account_number
        fa2).insert (ta.deposit amount).account_number (ta.deposit amount))
          fromId = some fa2
      rw [htn, hfn, Store.insert_ne _ _ _ _ hne, Store.insert_self]
    · show ((((s.remove fromId).remove toId).insert fa2.account_number
        fa2).insert (ta.deposit amount).account_number (ta.deposit amount))
          toId = some (ta.deposit amount)
      rw [htn, Store.insert_self]
    · rw [hfa2, BankAccount.deposit_balance, if_pos hpos]
      show fa.balance - amount + (ta.balance + amount) = fa.balance + ta.balance
      omega

/-- Witness for C2: on `storeAB`, the transfer 1 → 2 of 30 commits and the
two balances still sum to 150. -/
theorem secure_transfer_conservation_witness :
    WellFormed storeAB ∧ (1 : Nat) ≠ 2 ∧
      storeAB 1 = some { account_number := 1, balance := 100 } ∧
      storeAB 2 = some { account_number := 2, balance := 50 } ∧
      (secure_transfer storeAB 1 2 30).1 = TransferOutcome.committed ∧
      (∃ fa2 ta2,
        (secure_transfer storeAB 1 2 30).2 1 = some fa2 ∧
          (secure_transfer storeAB 1 2 30).2 2 = some ta2 ∧
          fa2.balance + ta2.balance = (100 : Int) + 50) :=
  ⟨storeAB_wellformed, by decide, by decide, by decide, by decide,
    secure_transfer_conservation storeAB 1 2 30
      { account_number := 1, balance := 100 }
      { account_number := 2, balance := 50 } storeAB_wellformed (by decide)
      (by decide) (by decide) (by decide)⟩

/-- Counterexample to C4 as stated: on `storeNeg` (account 1 has balance -5,
account 2 exists), the transfer 1 → 2 of amount 0 satisfies
`amount > balance(from)` (0 > -5) yet aborts with the invalid-amount reason,
not insufficient funds: the `amount <= 0` check fires first. -/
theorem sufficiency_gate_counterexample :
    (0 : Int) > -5 ∧
      storeNeg 1 = some { account_number := 1, balance := -5 } ∧
      storeNeg 2 = some { account_number := 2, balance := 0 } ∧
      (secure_transfer storeNeg 1 2 0).1 =
        TransferOutcome.withdrawFailed WithdrawError.invalidAmount ∧
      (secure_transfer storeNeg 1 2 0).1 ≠
        TransferOutcome.withdrawFailed WithdrawError.insufficientFunds := by
  decide

/-- Claim C4 (amended): for every secure transfer with `fromId ≠ toId` over a
well-formed store where both accounts exist, whenever the amount is positive
and exceeds the source balance, the transfer aborts with insufficient funds
and the store agrees with its pre-transfer state at every identifier. -/
theorem secure_transfer_insufficient_funds (s : Store) (fromId toId : Nat)
    (amount : Int) (id : Nat) (fa ta : BankAccount) (hwf : WellFormed s)
    (hne : fromId ≠ toId) (hf : s fromId = some fa) (ht : s toId = some ta)
    (hpos : 0 < amount) (hlt : fa.balance < amount) :
    (secure_transfer s fromId toId amount).1 =
        TransferOutcome.withdrawFailed WithdrawError.insufficientFunds ∧
      (secure_transfer s fromId toId amount).2 id = s id := by
  have hw : fa.withdraw amount =
      Except.error WithdrawError.insufficientFunds := by
    unfold BankAccount.withdraw
    rw [if_neg (by omega), if_neg (by omega)]
  rw [secure_transfer_withdraw_err s fromId toId amount fa ta _ hne hf ht hw]
  refine ⟨rfl, ?_⟩
  show ((((s.remove fromId).remove toId).insert fa.account_number fa).insert
    ta.account_number ta) id = s id
  rw [hwf fromId fa hf, hwf toId ta ht]
  exact restore_two s fromId toId fa ta hne hf ht id

/-- Witness for C4 (amended): on `storeAB`, the transfer 1 → 2 of 1000
aborts with insufficient funds and account 2 is untouched. -/
theorem secure_transfer_insufficient_funds_witness :
    WellFormed storeAB ∧ (1 : Nat) ≠ 2 ∧
      storeAB 1 = some { account_number := 1, balance := 100 } ∧
      storeAB 2 = some { account_number := 2, balance := 50 } ∧
      (0 : Int) < 1000 ∧ (100 : Int) < 1000 ∧
      ((secure_transfer storeAB 1 2 1000).1 =
          TransferOutcome.withdrawFailed WithdrawError.insufficientFunds ∧
        (secure_transfer storeAB 1 2 1000).2 2 = storeAB 2) :=
  ⟨storeAB_wellformed, by decide, by decide, by decide, by decide, by decide,
    secure_transfer_insufficient_funds storeAB 1 2 1000 2
      { account_number := 1, balance := 100 }
      { account_number := 2, balance := 50 } storeAB_wellformed (by decide)
      (by decide) (by decide) (by decide) (by decide)⟩

/-- Claim C9: in the vulnerable transfer, when the sender exists and the
receiver does not, the handler answers with the not-found status 404 while
the sender's balance has already been decreased by `amount` (no sufficiency
check, so it may go negative) and is never restored; the receiver stays
absent. -/
theorem vulnerable_transfer_receiver_missing (s : Store) (fromId toId : Nat)
    (amount : Int) (fa : BankAccount) (hf : s fromId = some fa)
    (ht : s toId = none) :
    (vulnerable_transfer s fromId toId amount).1 =
        VulnOutcome.receiverNotFound ∧
      VulnOutcome.receiverNotFound.statusCode = 404 ∧
      (vulnerable_transfer s fromId toId amount).2 fromId =
        some { fa with balance := fa.balance - amount } ∧
      (vulnerable_transfer s fromId toId amount).2 toId = none := by
  have hne : toId ≠ fromId := fun h => by rw [h, hf] at ht; cases ht
  have h1 : (s.insert fromId { fa with balance := fa.balance - amount })
      toId = none := by
    rw [Store.insert_ne _ _ _ _ hne, ht]
  have hstep : vulnerable_transfer s fromId toId amount =
      (VulnOutcome.receiverNotFound,
        s.insert fromId { fa with balance := fa.balance - amount }) := by
    simp [vulnerable_transfer, hf, h1]
  rw [hstep]
  exact ⟨rfl, rfl, Store.insert_self _ _ _, h1⟩

/-- A store holding only account 1 with balance 5 (for the C9 witness). -/
def storeV : Store :=
  Store.empty.insert 1 { account_number := 1, balance := 5 }

/-- Witness for C9: on `storeV`, the vulnerable transfer 1 → 2 of 100
reports receiver-not-found while account 1 is left debited to -95. -/
theorem vulnerable_transfer_receiver_missing_witness :
    storeV 1 = some { account_number := 1, balance := 5 } ∧
      storeV 2 = none ∧
      ((vulnerable_transfer storeV 1 2 100).1 =
          VulnOutcome.receiverNotFound ∧
        VulnOutcome.receiverNotFound.statusCode = 404 ∧
        (vulnerable_transfer storeV 1 2 100).2 1 =
          some { account_number := 1, balance := 5 - 100 } ∧
        (vulnerable_transfer storeV 1 2 100).2 2 = none) ∧
      (5 : Int) - 100 < 0 :=
  ⟨by decide, by decide,
    vulnerable_transfer_receiver_missing storeV 1 2 100
      { account_number := 1, balance := 5 } (by decide) (by decide),
    by decide⟩

/-- Claim C10: every mutating handler preserves the store invariant that each
entry's key equals the stored account's `account_number`: `create_account`
inserts matching entries into both stores under the fresh identifier,
`secure_transfer` reinserts every detached account keyed by its own
`account_number` on commit and on every abort path, and
`vulnerable_transfer` only rewrites balances in place (`get_account` performs
no mutation at all). -/
theorem handlers_preserve_wellformed (vs ss s vv : Store)
    (new_id fromId toId : Nat) (initial_balance amount : Int)
    (hv : WellFormed vs) (hs : WellFormed ss) (h1 : WellFormed s)
    (h2 : WellFormed vv) :
    WellFormed (create_account vs ss new_id initial_balance).1 ∧
      WellFormed (create_account vs ss new_id initial_balance).2 ∧
      WellFormed (secure_transfer s fromId toId amount).2 ∧
      WellFormed (vulnerable_transfer vv fromId toId amount).2 := by
  refine ⟨wellformed_insert _ _ _ hv rfl, wellformed_insert _ _ _ hs rfl,
    ?_, ?_⟩
  · by_cases he : fromId = toId
    · rw [secure_transfer_same _ _ _ _ he]; exact h1
    · cases hsf : s fromId with
      | none => rw [secure_transfer_no_source _ _ _ _ he hsf]; exact h1
      | some fa =>
        cases hst : s toId with
        | none =>
          rw [secure_transfer_no_dest _ _ _ _ fa he hsf hst]
          exact wellformed_insert _ _ _ (wellformed_remove _ _ h1) rfl
        | some ta =>
          cases hw : fa.withdraw amount with
          | error e =>
            rw [secure_transfer_withdraw_err _ _ _ _ fa ta e he hsf hst hw]
            exact wellformed_insert _ _ _ (wellformed_insert _ _ _
              (wellformed_remove _ _ (wellformed_remove _ _ h1)) rfl) rfl
          | ok fa2 =>
            rw [secure_transfer_commit _ _ _ _ fa ta fa2 he hsf hst hw]
            exact wellformed_insert _ _ _ (wellformed_insert _ _ _
              (wellformed_remove _ _ (wellformed_remove _ _ h1)) rfl) rfl
  · cases hsf : vv fromId with
    | none =>
      have hstep : vulnerable_transfer vv fromId toId amount =
          (VulnOutcome.senderNotFound, vv) := by
        simp [vulnerable_transfer, hsf]
      rw [hstep]; exact h2
    | some fa =>
      have hA : ({ fa with balance := fa.balance - amount } :
          BankAccount).account_number = fromId := h2 fromId fa hsf
      have hwfs1 : WellFormed (vv.insert fromId
          { fa with balance := fa.balance - amount }) :=
        wellformed_insert _ _ _ h2 hA
      cases hst : (vv.insert fromId
          { fa with balance := fa.balance - amount }) toId with
      | none =>
        have hstep : vulnerable_transfer vv fromId toId amount =
            (VulnOutcome.receiverNotFound, vv.insert fromId
              { fa with balance := fa.balance - amount }) := by
          simp [vulnerable_transfer, hsf, hst]
        rw [hstep]; exact hwfs1
      | some ta =>
        have hstep : vulnerable_transfer vv fromId toId amount =
            (VulnOutcome.ok, (vv.insert fromId
              { fa with balance := fa.balance - amount }).insert toId
                { ta with balance := ta.balance + amount }) := by
          simp [vulnerable_transfer, hsf, hst]
        rw [hstep]
        exact wellformed_insert _ _ _ hwfs1 (hwfs1 toId ta hst)

/-- Witness for C10: the four preservation facts at concrete stores. -/
theorem handlers_preserve_wellformed_witness :
    WellFormed storeA ∧ WellFormed storeAB ∧
      (WellFormed (create_account storeA storeAB 7 25).1 ∧
        WellFormed (create_account storeA storeAB 7 25).2 ∧
        WellFormed (secure_transfer storeAB 1 2 30).2 ∧
        WellFormed (vulnerable_transfer storeA 1 2 30).2) :=
  ⟨storeA_wellformed, storeAB_wellformed,
    handlers_preserve_wellformed storeA storeAB storeAB storeA 7 1 2 25 30
      storeA_wellformed storeAB_wellformed storeAB_wellformed
      storeA_wellformed⟩

/-- `BankAccount.deposit` lifted to the store entry at `id`, as in the spec's
observation sequences over committed transfers and deposits (the code's
deposit is an account method; there is no deposit endpoint, so the lift
applies it to the stored account and leaves absent identifiers alone). -/
def depositOp (s : Store) (id : Nat) (amount : Int) : Store :=
  match s id with
  | none => s
  | some acct => s.insert id (acct.deposit amount)

/-- An operation of the spec's observation sequences: a secure transfer or a
deposit to a stored account. -/
inductive Op where
  | transfer (fromId toId : Nat) (amount : Int)
  | depositTo (id : Nat) (amount : Int)

/-- Run one operation against the store. -/
def applyOp (s : Store) : Op → Store
  | Op.transfer fromId toId amount => (secure_transfer s fromId toId amount).2
  | Op.depositTo id amount => depositOp s id amount

/-- Run a sequence of operations against the store. -/
def applyOps (s : Store) : List Op → Store
  | [] => s
  | op :: ops => applyOps (applyOp s op) ops

/-- Whether an operation is a committed transfer or a deposit. -/
def opCommits (s : Store) : Op → Bool
  | Op.transfer fromId toId amount =>
    decide ((secure_transfer s fromId toId amount).1 =
      TransferOutcome.committed)
  | Op.depositTo _ _ => true

/-- Whether every transfer in the sequence commits in the state it runs in. -/
def allCommitted (s : Store) : List Op → Bool
  | [] => true
  | op :: ops => opCommits s op && allCommitted (applyOp s op) ops

theorem secure_transfer_nonneg (s : Store) (fromId toId : Nat) (amount : Int)
    (h : NonNeg s) : NonNeg (secure_transfer s fromId toId amount).2 := by
  by_cases he : fromId = toId
  · rw [secure_transfer_same _ _ _ _ he]; exact h
  · cases hsf : s fromId with
    | none => rw [secure_transfer_no_source _ _ _ _ he hsf]; exact h
    | some fa =>
      cases hst : s toId with
      | none =>
        rw [secure_transfer_no_dest _ _ _ _ fa he hsf hst]
        exact nonneg_insert _ _ _ (nonneg_remove _ _ h) (h fromId fa hsf)
      | some ta =>
        cases hw : fa.withdraw amount with
        | error e =>
          rw [secure_transfer_withdraw_err _ _ _ _ fa ta e he hsf hst hw]
          exact nonneg_insert _ _ _ (nonneg_insert _ _ _ (nonneg_remove _ _
            (nonneg_remove _ _ h)) (h fromId fa hsf)) (h toId ta hst)
        | ok fa2 =>
          obtain ⟨hpos, hle, hfa2⟩ :=
            (BankAccount.withdraw_ok_iff fa amount fa2).1 hw
          rw [secure_transfer_commit _ _ _ _ fa ta fa2 he hsf hst hw]
          refine nonneg_insert _ _ _ (nonneg_insert _ _ _ (nonneg_remove _ _
            (nonneg_remove _ _ h)) ?_) ?_
          · rw [hfa2]
            show 0 ≤ fa.balance - amount
            omega
          · rw [BankAccount.deposit_balance, if_pos hpos]
            have hb := h toId ta hst
            omega

theorem depositOp_nonneg (s : Store) (id : Nat) (amount : Int)
    (h : NonNeg s) : NonNeg (depositOp s id amount) := by
  unfold depositOp
  cases hs : s id with
  | none => exact h
  | some acct =>
    refine nonneg_insert _ _ _ h ?_
    rw [BankAccount.deposit_balance]
    have hb := h id acct hs
    split <;> omega

theorem applyOp_nonneg (s : Store) (op : Op) (h : NonNeg s) :
    NonNeg (applyOp s op) := by
  cases op with
  | transfer fromId toId amount =>
    exact secure_transfer_nonneg s fromId toId amount h
  | depositTo id amount => exact depositOp_nonneg s id amount h

/-- Claim C5: for every sequence of operations consisting only of committed
secure transfers and deposits, starting from a store in which every balance
is non-negative, every balance in the store remains non-negative after the
sequence (the induction applies the invariant at every intermediate store,
so it holds at each observation point). -/
theorem nonneg_invariant (s : Store) (ops : List Op) :
    allCommitted s ops = true → NonNeg s → NonNeg (applyOps s ops) := by
  induction ops generalizing s with
  | nil => exact fun _ h0 => h0
  | cons op ops ih =>
    intro hc h0
    simp only [allCommitted, Bool.and_eq_true] at hc
    exact ih (applyOp s op) hc.2 (applyOp_nonneg s op h0)

/-- Witness for C5: on `storeAB`, the sequence (transfer 1 → 2 of 30, then
deposit 5 to account 2) is all committed and keeps every balance
non-negative. -/
theorem nonneg_invariant_witness :
    allCommitted storeAB [Op.transfer 1 2 30, Op.depositTo 2 5] = true ∧
      NonNeg storeAB ∧
      NonNeg (applyOps storeAB [Op.transfer 1 2 30, Op.depositTo 2 5]) :=
  ⟨by decide, storeAB_nonneg,
    nonneg_invariant storeAB [Op.transfer 1 2 30, Op.depositTo 2 5]
      (by decide) storeAB_nonneg⟩
